import Mathlib

/-!
Shallow embedding of `src/server.py` (Edge-To-Shoe sketch-to-image Flask server).

Pure Python helpers (`fix_base64_padding`, the base64 codec behaviour of
`base64.b64decode` / `base64.b64encode` on alphabet-plus-padding strings, the
preprocessing transform `my_transform`) are translated into executable Lean
functions.  Library calls whose numerics are external (PIL `Image.open`, the
bilinear `Resize`, the pretrained `Generator` forward pass, PNG serialisation)
are oracles bundled in an `Oracles` structure.  Tensor values after the
unguarded min-max division are modelled by `FVal`, a rational tagged with the
IEEE non-finite outcomes, so that 0/0 is `nan` exactly as in torch.
The handler `generate` returns the HTTP response together with the list of
files it saves under `tmp_dir` and the torch RNG seed after the request.
-/

namespace EdgeToShoe

/-! ### Base64, mirroring Python `base64.b64decode` / `b64encode` -/

/-- Value of one character of the standard base64 alphabet, `none` otherwise. -/
def b64charVal (c : Char) : Option Nat :=
  if 'A' ≤ c ∧ c ≤ 'Z' then some (c.toNat - 65)
  else if 'a' ≤ c ∧ c ≤ 'z' then some (c.toNat - 97 + 26)
  else if '0' ≤ c ∧ c ≤ '9' then some (c.toNat - 48 + 52)
  else if c = '+' then some 62
  else if c = '/' then some 63
  else none

/-- One complete quad of sextets decodes to three bytes. -/
def decodeGroup4 (a b c d : Nat) : List Nat :=
  [a * 4 + b / 16, (b % 16) * 16 + c / 4, (c % 4) * 64 + d]

/-- Decode a list of sextets; a trailing pair or triple yields 1 or 2 bytes. -/
def decodeSextets : List Nat → List Nat
  | a :: b :: c :: d :: rest => decodeGroup4 a b c d ++ decodeSextets rest
  | [a, b, c] => [a * 4 + b / 16, (b % 16) * 16 + c / 4]
  | [a, b] => [a * 4 + b / 16]
  | _ => []

/-- Python `base64.b64decode` on strings of alphabet characters and `=`
padding: data characters congruent to 1 mod 4 are rejected outright, and the
total of data plus padding characters must be a multiple of 4, otherwise
`binascii.Error: Incorrect padding` is raised. -/
def b64decode (s : String) : Except String (List Nat) :=
  let data := s.data.filterMap b64charVal
  let padCount := (s.data.filter (fun c => c = '=')).length
  if data.length % 4 = 1 then
    Except.error "Invalid base64-encoded string: number of data characters cannot be 1 more than a multiple of 4"
  else if (data.length + padCount) % 4 ≠ 0 then
    Except.error "Incorrect padding"
  else
    Except.ok (decodeSextets data)

/-- Character of one sextet value of the standard base64 alphabet. -/
def sextetChar (n : Nat) : Char :=
  if n < 26 then Char.ofNat (65 + n)
  else if n < 52 then Char.ofNat (97 + (n - 26))
  else if n < 62 then Char.ofNat (48 + (n - 52))
  else if n = 62 then '+'
  else '/'

/-- Standard base64 encoding of a byte list, with `=` padding. -/
def b64encodeChars : List Nat → List Char
  | a :: b :: c :: rest =>
      sextetChar (a / 4) :: sextetChar ((a % 4) * 16 + b / 16) ::
      sextetChar ((b % 16) * 4 + c / 64) :: sextetChar (c % 64) :: b64encodeChars rest
  | [a, b] => [sextetChar (a / 4), sextetChar ((a % 4) * 16 + b / 16), sextetChar ((b % 16) * 4), '=']
  | [a] => [sextetChar (a / 4), sextetChar ((a % 4) * 16), '=', '=']
  | [] => []

/-- Python `base64.b64encode` (result as a Lean string). -/
def b64encode (bs : List Nat) : String :=
  String.mk (b64encodeChars bs)

/-- Function `fix_base64_padding` of `src/server.py` lines 48-53: append `=` characters
when the length is not a multiple of 4 (`if padding_needed:` is Python truthiness). -/
def fix_base64_padding (s : String) : String :=
  if s.length % 4 ≠ 0 then s ++ String.mk (List.replicate (4 - s.length % 4) '=') else s

/-! ### Images and the preprocessing transform -/

/-- A decoded raster image of arbitrary size, pixels given in RGB. -/
structure RGBImage where
  width : Nat
  height : Nat
  px : Nat → Nat → Nat × Nat × Nat

/-- A PIL image as returned by `Image.open`: an arbitrary mode together with
its pixel data rendered to RGB (the rendering `Image.convert` would produce). -/
structure PILImage where
  mode : String
  img : RGBImage

/-- Conversion `original_image.convert("RGB")` of line 72. -/
def convertRGB (im : PILImage) : RGBImage := im.img

/-- PIL RGB-to-L luma conversion used by `transforms.Grayscale`
(ITU-R 601-2, computed as in PIL: `(19595 R + 38470 G + 7471 B + 32768) >> 16`). -/
def grayL : Nat × Nat × Nat → Nat
  | (r, g, b) => (19595 * r + 38470 * g + 7471 * b + 32768) / 65536

/-- The tensor produced by `Resize((128,128))`, `Grayscale(3)`, `ToTensor()`:
three identical channels of the luma of the resized image, divided by 255. -/
def preTensor (resized : Fin 128 → Fin 128 → Nat × Nat × Nat) :
    Fin 3 → Fin 128 → Fin 128 → ℚ :=
  fun _ i j => (grayL (resized i j) : ℚ) / 255

/-- Minimum `x.min()` over all entries of a 3x128x128 tensor. -/
def tmin (x : Fin 3 → Fin 128 → Fin 128 → ℚ) : ℚ :=
  Finset.univ.inf' Finset.univ_nonempty
    (fun p : Fin 3 × Fin 128 × Fin 128 => x p.1 p.2.1 p.2.2)

/-- Maximum `x.max()` over all entries of a 3x128x128 tensor. -/
def tmax (x : Fin 3 → Fin 128 → Fin 128 → ℚ) : ℚ :=
  Finset.univ.sup' Finset.univ_nonempty
    (fun p : Fin 3 × Fin 128 × Fin 128 => x p.1 p.2.1 p.2.2)

/-- A torch float value: finite rational, or one of the IEEE non-finite values. -/
inductive FVal where
  | fin (q : ℚ)
  | nan
  | inf
  | ninf
deriving DecidableEq

/-- Whether a torch value is finite. -/
def isFin : FVal → Bool
  | .fin _ => true
  | _ => false

/-- IEEE division of finite values: division by zero yields nan for a zero
numerator and a signed infinity otherwise. -/
def fdiv (a b : ℚ) : FVal :=
  if b = 0 then (if a = 0 then FVal.nan else if 0 < a then FVal.inf else FVal.ninf)
  else FVal.fin (a / b)

/-- The `2.0 * x - 1.0` lambda of line 45, extended to non-finite values. -/
def scaleShift : FVal → FVal
  | .fin q => .fin (2 * q - 1)
  | .nan => .nan
  | .inf => .inf
  | .ninf => .ninf

/-- The `(t + 1) / 2` denormalisation of lines 85 and 96. -/
def fvalDenorm : FVal → FVal
  | .fin q => .fin ((q + 1) / 2)
  | .nan => .nan
  | .inf => .inf
  | .ninf => .ninf

/-- Clamp `torch.clamp(t, 0, 1)` of line 97; clamp propagates nan. -/
def fclamp01 : FVal → FVal
  | .fin q => .fin (max 0 (min 1 q))
  | .nan => .nan
  | .inf => .fin 1
  | .ninf => .fin 0

/-- Conversion `ToPILImage`: multiply by 255 and truncate to a byte; the conversion of a
non-finite float is unspecified in torch and modelled as 0. -/
def toByte : FVal → Nat
  | .fin q => (⌊q * 255⌋).toNat
  | _ => 0

/-- Transform `my_transform` of lines 37-46, applied to an RGB image through a resize
oracle: resize, grayscale to three channels, `ToTensor`, then the unguarded
min-max normalisation `(x - x.min()) / (x.max() - x.min())` followed by
`2 * x - 1`. -/
def my_transform (resizeO : RGBImage → Fin 128 → Fin 128 → Nat × Nat × Nat)
    (img : RGBImage) : Fin 3 → Fin 128 → Fin 128 → FVal :=
  let x := preTensor (resizeO img)
  fun c i j => scaleShift (fdiv (x c i j - tmin x) (tmax x - tmin x))

/-- A batched 1x3x128x128 tensor of torch values. -/
def Tensor4 := Fin 1 → Fin 3 → Fin 128 → Fin 128 → FVal

/-- Operation `unsqueeze(0)` of line 80. -/
def unsqueeze0 (t : Fin 3 → Fin 128 → Fin 128 → FVal) : Tensor4 := fun _ => t

/-! ### The server -/

/-- The external library operations the handler delegates to: PIL image
decoding, bilinear resize, the pretrained Generator forward pass (a function
of the torch RNG seed), and PNG serialisation. -/
structure Oracles where
  imgOpen : List Nat → Except String PILImage
  resizeO : RGBImage → Fin 128 → Fin 128 → Nat × Nat × Nat
  modelF : Nat → Tensor4 → Tensor4
  pngEncode : (Fin 3 → Fin 128 → Fin 128 → Nat) → List Nat

/-- A JSON value of the shapes the server produces. -/
inductive JVal where
  | str (s : String)
  | num (n : Nat)
deriving DecidableEq

/-- An HTTP response with a JSON object body. -/
structure HttpResponse where
  status : Nat
  body : List (String × JVal)
deriving DecidableEq

/-- A POST request: `request.json` either raises or yields a JSON object whose
fields of interest are strings. -/
structure HttpRequest where
  json : Except String (List (String × String))

/-- Python `dict.get`: first binding of the key, else `none`. -/
def jget (k : String) : List (String × String) → Option String
  | [] => none
  | (k2, v) :: rest => if k2 = k then some v else jget k rest

/-- Contents of a file saved by the handler. -/
inductive SavedImage where
  | ofRGB (img : RGBImage)
  | ofTensor (t : Fin 3 → Fin 128 → Fin 128 → Nat)

/-- Directory `tmp_dir` of line 23. -/
def tmp_dir : String := "/Users/tamarreuven/ShoeSketchBackend/tmp"

/-- Lines 89-100: forward pass under the current seed, squeeze, denormalise,
clamp, convert to bytes for `ToPILImage`. -/
def outputImage (o : Oracles) (seed : Nat) (input_tensor : Tensor4) :
    Fin 3 → Fin 128 → Fin 128 → Nat :=
  fun c i j => toByte (fclamp01 (fvalDenorm (o.modelF seed input_tensor 0 c i j)))

/-- The body of the `try` block of `generate` (lines 57-109): each Python
exception becomes an `Except.error` carrying `str(e)`; on success it returns
the response JSON together with the files saved under `tmp_dir`. -/
def generateBody (o : Oracles) (req : HttpRequest) (seed : Nat) :
    Except String (List (String × JVal) × List (String × SavedImage)) :=
  match req.json with
  | .error e => .error e
  | .ok data =>
    match jget "sketch" data with
    | none => .error "argument should be a bytes-like object or ASCII string, not NoneType"
    | some sketch_base64 =>
      match b64decode sketch_base64 with
      | .error e => .error e
      | .ok image_data =>
        match o.imgOpen image_data with
        | .error e => .error e
        | .ok original_image =>
          let processed_image := convertRGB original_image
          let input_tensor := unsqueeze0 (my_transform o.resizeO processed_image)
          let outImg := outputImage o seed input_tensor
          .ok ([("generated_image", JVal.str (b64encode (o.pngEncode outImg)))],
                [(tmp_dir ++ "/processed_input.png", SavedImage.ofRGB processed_image),
                 (tmp_dir ++ "/debug_input.png",
                   SavedImage.ofTensor (fun c i j => toByte (fvalDenorm (input_tensor 0 c i j)))),
                 (tmp_dir ++ "/final_output.png", SavedImage.ofTensor outImg)])

/-- The `/generate` handler: `torch.manual_seed(42)` replaces the incoming RNG
state before anything else, the `try` body runs, and any exception is turned
into a 500 JSON error response (lines 111-114). Result: response, files
written, RNG seed after the request. -/
def generate (o : Oracles) (req : HttpRequest) (rng : Nat) :
    HttpResponse × List (String × SavedImage) × Nat :=
  match generateBody o req 42 with
  | .ok (body, writes) => (⟨200, body⟩, writes, 42)
  | .error e => (⟨500, [("error", JVal.str e)]⟩, [], 42)

/-- The `Generator(n_channels=3, n_classes=3, bilinear=True)` instance of line 27. -/
structure Generator where
  n_channels : Nat
  n_classes : Nat
  bilinear : Bool

/-- Instance `model` of line 27. -/
def model : Generator := ⟨3, 3, true⟩

/-- Handler `health_check` of lines 116-119: `jsonify` with default status 200. -/
def health_check : HttpResponse :=
  ⟨200, [("status", JVal.str "ok"), ("model", JVal.str "Generator"),
         ("n_channels", JVal.num model.n_channels), ("n_classes", JVal.num model.n_classes)]⟩

/-- A file response of the artifact download routes. -/
structure FileResponse where
  status : Nat
  file : Option (List Nat)
deriving DecidableEq

/-- Modelled from the spec: the artifact download routes `GET
download_checkpoint` and `GET download_torchscript` belong to the second
near-duplicate server copy, which is not under `src/`; per the spec they are
static file downloads of the model artifact files, 404 if absent. `fs` is the
file system, mapping a path to its bytes when the file exists. -/
def send_artifact (fs : String → Option (List Nat)) (path : String) : FileResponse :=
  match fs path with
  | some bs => ⟨200, some bs⟩
  | none => ⟨404, none⟩

/-- Path of the checkpoint artifact (line 28). -/
def checkpoint_path : String := "/Users/tamarreuven/ShoeSketchBackend/final_generator.pth"

/-- Modelled from the spec: path of the torchscript artifact, absent from `src/`. -/
def torchscript_path : String := "/Users/tamarreuven/ShoeSketchBackend/generator_torchscript.pt"

/-- Modelled from the spec: the `GET /download_checkpoint` route. -/
def download_checkpoint (fs : String → Option (List Nat)) : FileResponse :=
  send_artifact fs checkpoint_path

/-- Modelled from the spec: the `GET /download_torchscript` route. -/
def download_torchscript (fs : String → Option (List Nat)) : FileResponse :=
  send_artifact fs torchscript_path

/-! ### Concrete fixtures for witnesses and counterexamples -/

/-- A one-pixel black image. -/
def rgbBlack : RGBImage := ⟨1, 1, fun _ _ => (0, 0, 0)⟩

/-- A PIL image of mode L rendering to the black image. -/
def img0 : PILImage := ⟨"L", rgbBlack⟩

/-- A resize oracle producing a constant black 128x128 image. -/
def resizeConst : RGBImage → Fin 128 → Fin 128 → Nat × Nat × Nat :=
  fun _ _ _ => (0, 0, 0)

/-- A resize oracle producing one black pixel in an otherwise white image. -/
def resizeTwo : RGBImage → Fin 128 → Fin 128 → Nat × Nat × Nat :=
  fun _ i j => if i = 0 ∧ j = 0 then (0, 0, 0) else (255, 255, 255)

/-- A concrete oracle bundle: every byte string opens as `img0`, resize is the
constant black resize, the model is the identity, PNG encoding is a stub
serialiser. -/
def oracle0 : Oracles :=
  ⟨fun _ => .ok img0, resizeConst, fun _ t => t, fun _ => [137, 80]⟩

/-- A request whose sketch field is the well-padded base64 of `ABCD`. -/
def req0 : HttpRequest := ⟨.ok [("sketch", "QUJDRA==")]⟩

/-- A request whose sketch field has length 6, not a multiple of 4. -/
def reqBad : HttpRequest := ⟨.ok [("sketch", "QUJDRA")]⟩

/-- The everywhere-empty file system. -/
def fsEmpty : String → Option (List Nat) := fun _ => none

/-! ### Theorems -/

/-- Claim C1 (code bug): the spec says base64 padding is auto-corrected before
decoding, but `generate` never calls `fix_base64_padding` and passes the raw
string to `b64decode`; on the length-6 sketch `QUJDRA` the handler returns 500
with the `Incorrect padding` message, while `fix_base64_padding` would have
produced `QUJDRA==`, which decodes to the bytes of `ABCD`. -/
theorem C1_padding_never_applied :
    ∀ (o : Oracles) (rng : Nat),
      (generate o reqBad rng).1.status = 500 ∧
      (generate o reqBad rng).1.body = [("error", JVal.str "Incorrect padding")] ∧
      fix_base64_padding "QUJDRA" = "QUJDRA==" ∧
      b64decode (fix_base64_padding "QUJDRA") = Except.ok [65, 66, 67, 68] := by
  intro o rng
  refine ⟨rfl, rfl, by decide, rfl⟩

/-- Claim C2: `fix_base64_padding` returns its argument unchanged when the
length is a multiple of 4, and otherwise appends exactly `4 - len % 4`
equals-sign characters, so the result length is always a multiple of 4. -/
theorem C2_fix_base64_padding_correct :
    ∀ s : String,
      (fix_base64_padding s).length % 4 = 0 ∧
      (s.length % 4 = 0 → fix_base64_padding s = s) ∧
      (s.length % 4 ≠ 0 →
        fix_base64_padding s = s ++ String.mk (List.replicate (4 - s.length % 4) '=')) := by
  intro s
  by_cases h : s.length % 4 = 0
  · refine ⟨?_, fun _ => ?_, fun hne => absurd h hne⟩ <;> simp [fix_base64_padding, h]
  · have hfix : fix_base64_padding s = s ++ String.mk (List.replicate (4 - s.length % 4) '=') := by
      simp [fix_base64_padding, h]
    refine ⟨?_, fun h0 => absurd h0 h, fun _ => hfix⟩
    rw [hfix]
    have hlen : (s ++ String.mk (List.replicate (4 - s.length % 4) '=')).length
        = s.length + (4 - s.length % 4) := by
      simp [String.length_append, String.length_mk]
    rw [hlen]
    omega

/-- Witness for C2 at concrete inputs: a string of length 10 gets two
equals-sign characters appended, and a length-4 string is unchanged. -/
theorem C2_fix_base64_padding_witness :
    fix_base64_padding "ABCDEFGHIJ"
      = "ABCDEFGHIJ" ++ String.mk (List.replicate (4 - "ABCDEFGHIJ".length % 4) '=') ∧
    fix_base64_padding "QUJD" = "QUJD" :=
  ⟨(C2_fix_base64_padding_correct "ABCDEFGHIJ").2.2 (by decide),
   (C2_fix_base64_padding_correct "QUJD").2.1 (by decide)⟩

/-- Claim C3: the handler's `try` wraps every processing step, so the response
of `generate` is a total function of the request: either status 200, or status
500 with body `[error, message]` where the message is the exception raised by
the body; no request yields a 4xx status or an uncaught exception. -/
theorem C3_failures_become_500 :
    ∀ (o : Oracles) (req : HttpRequest) (rng : Nat),
      (generate o req rng).1.status = 200 ∨
      ((generate o req rng).1.status = 500 ∧
        ∃ e, (generate o req rng).1.body = [("error", JVal.str e)] ∧
          generateBody o req 42 = Except.error e) := by
  intro o req rng
  unfold generate
  rcases h : generateBody o req 42 with e | ⟨b, w⟩
  · exact Or.inr ⟨rfl, e, rfl, rfl⟩
  · exact Or.inl rfl

/-- Claim C4 (modelled from the spec, the download routes live in the second
server copy absent from `src/`): both artifact download routes serve the file
when it exists and return status 404 with no body when it is absent. -/
theorem C4_download_routes :
    ∀ fs : String → Option (List Nat),
      (fs checkpoint_path = none → download_checkpoint fs = ⟨404, none⟩) ∧
      (fs torchscript_path = none → download_torchscript fs = ⟨404, none⟩) ∧
      (∀ bs, fs checkpoint_path = some bs → download_checkpoint fs = ⟨200, some bs⟩) ∧
      (∀ bs, fs torchscript_path = some bs → download_torchscript fs = ⟨200, some bs⟩) := by
  intro fs
  refine ⟨fun h => ?_, fun h => ?_, fun bs h => ?_, fun bs h => ?_⟩ <;>
    simp [download_checkpoint, download_torchscript, send_artifact, h]

/-- Witness for C4: on the empty file system both routes answer 404. -/
theorem C4_download_routes_witness :
    download_checkpoint fsEmpty = ⟨404, none⟩ ∧ download_torchscript fsEmpty = ⟨404, none⟩ :=
  ⟨(C4_download_routes fsEmpty).1 rfl, (C4_download_routes fsEmpty).2.1 rfl⟩

/-- Claim C7: the handler resets the torch seed to 42 at the start of each
request (line 59), so two requests with identical bodies produce identical
results whatever RNG state each starts from: `generate` ignores the incoming
seed entirely. -/
theorem C7_deterministic :
    ∀ (o : Oracles) (req : HttpRequest) (rng1 rng2 : Nat),
      generate o req rng1 = generate o req rng2 :=
  fun _ _ _ _ => rfl

/-- Claim C9: `health_check` answers status 200 with exactly the static fields
status `ok`, model `Generator`, and the model's channel counts, which are both
3 for the loaded `Generator(n_channels=3, n_classes=3)`. -/
theorem C9_health_static :
    health_check.status = 200 ∧
    health_check.body =
      [("status", JVal.str "ok"), ("model", JVal.str "Generator"),
       ("n_channels", JVal.num 3), ("n_classes", JVal.num 3)] ∧
    model.n_channels = 3 ∧ model.n_classes = 3 :=
  ⟨rfl, rfl, rfl, rfl⟩

/-- The batch dimension added by `unsqueeze(0)` carries the same 3x128x128
tensor at its only index. -/
theorem unsqueeze0_apply (t : Fin 3 → Fin 128 → Fin 128 → FVal) (bb : Fin 1) :
    unsqueeze0 t bb = t := rfl

/-- The pre-normalisation tensor does not depend on the channel index:
grayscale conversion replicated the luma into all three channels. -/
theorem preTensor_channel (r : Fin 128 → Fin 128 → Nat × Nat × Nat)
    (c cc : Fin 3) (i j : Fin 128) : preTensor r c i j = preTensor r cc i j := rfl

/-- The transformed tensor does not depend on the channel index. -/
theorem my_transform_channel (ro : RGBImage → Fin 128 → Fin 128 → Nat × Nat × Nat)
    (img : RGBImage) (c cc : Fin 3) (i j : Fin 128) :
    my_transform ro img c i j = my_transform ro img cc i j := by
  show scaleShift (fdiv (preTensor (ro img) c i j - tmin (preTensor (ro img)))
      (tmax (preTensor (ro img)) - tmin (preTensor (ro img))))
    = scaleShift (fdiv (preTensor (ro img) cc i j - tmin (preTensor (ro img)))
      (tmax (preTensor (ro img)) - tmin (preTensor (ro img))))
  rw [preTensor_channel (ro img) c cc i j]

/-- Division by a nonzero denominator is the finite rational quotient. -/
theorem fdiv_of_ne (a b : ℚ) (hb : b ≠ 0) : fdiv a b = FVal.fin (a / b) := by
  unfold fdiv
  rw [if_neg hb]

/-- The minimum of the tensor bounds every entry below. -/
theorem tmin_le_entry (x : Fin 3 → Fin 128 → Fin 128 → ℚ) (c : Fin 3) (i j : Fin 128) :
    tmin x ≤ x c i j :=
  Finset.inf'_le (fun p : Fin 3 × Fin 128 × Fin 128 => x p.1 p.2.1 p.2.2)
    (Finset.mem_univ (c, i, j))

/-- The maximum of the tensor bounds every entry above. -/
theorem entry_le_tmax (x : Fin 3 → Fin 128 → Fin 128 → ℚ) (c : Fin 3) (i j : Fin 128) :
    x c i j ≤ tmax x :=
  Finset.le_sup' (fun p : Fin 3 × Fin 128 × Fin 128 => x p.1 p.2.1 p.2.2)
    (Finset.mem_univ (c, i, j))

/-- Two distinct entries force a strict gap between minimum and maximum. -/
theorem tmin_lt_tmax_of_ne {x : Fin 3 → Fin 128 → Fin 128 → ℚ}
    {c : Fin 3} {i j : Fin 128} {cc : Fin 3} {ii jj : Fin 128}
    (h : x c i j ≠ x cc ii jj) : tmin x < tmax x := by
  rcases lt_or_gt_of_ne h with hlt | hgt
  · exact lt_of_le_of_lt (tmin_le_entry x c i j) (lt_of_lt_of_le hlt (entry_le_tmax x cc ii jj))
  · exact lt_of_le_of_lt (tmin_le_entry x cc ii jj) (lt_of_lt_of_le hgt (entry_le_tmax x c i j))

/-- A tensor whose entries all equal one entry has that entry as its minimum. -/
theorem tmin_eq_of_const (x : Fin 3 → Fin 128 → Fin 128 → ℚ) (c : Fin 3) (i j : Fin 128)
    (h : ∀ cc ii jj, x cc ii jj = x c i j) : tmin x = x c i j :=
  le_antisymm (tmin_le_entry x c i j)
    (Finset.le_inf' _ _ (fun p _ => (h p.1 p.2.1 p.2.2).ge))

/-- A tensor whose entries all equal one entry has that entry as its maximum. -/
theorem tmax_eq_of_const (x : Fin 3 → Fin 128 → Fin 128 → ℚ) (c : Fin 3) (i j : Fin 128)
    (h : ∀ cc ii jj, x cc ii jj = x c i j) : tmax x = x c i j :=
  le_antisymm (Finset.sup'_le _ _ (fun p _ => (h p.1 p.2.1 p.2.2).le))
    (entry_le_tmax x c i j)

/-- When the resized grayscale image is constant, the min-max divisor is zero
and every entry of the transformed tensor is nan. -/
theorem my_transform_nan_of_const (ro : RGBImage → Fin 128 → Fin 128 → Nat × Nat × Nat)
    (img : RGBImage) (h : ∀ i j ii jj, grayL (ro img i j) = grayL (ro img ii jj))
    (c : Fin 3) (i j : Fin 128) :
    tmax (preTensor (ro img)) - tmin (preTensor (ro img)) = 0 ∧
    my_transform ro img c i j = FVal.nan := by
  have hconst : ∀ cc ii jj, preTensor (ro img) cc ii jj = preTensor (ro img) c i j := by
    intro cc ii jj
    simp only [preTensor, h ii jj i j]
  have hmin : tmin (preTensor (ro img)) = preTensor (ro img) c i j :=
    tmin_eq_of_const _ c i j hconst
  have hmax : tmax (preTensor (ro img)) = preTensor (ro img) c i j :=
    tmax_eq_of_const _ c i j hconst
  constructor
  · rw [hmin, hmax, sub_self]
  · show scaleShift (fdiv (preTensor (ro img) c i j - tmin (preTensor (ro img)))
      (tmax (preTensor (ro img)) - tmin (preTensor (ro img)))) = FVal.nan
    rw [hmin, hmax, sub_self]
    simp [fdiv, scaleShift]

/-- When the resized grayscale image has two distinct pixel values, every
entry of the transformed tensor is finite and lies in the interval [-1, 1]. -/
theorem my_transform_finite_of_two_values
    (ro : RGBImage → Fin 128 → Fin 128 → Nat × Nat × Nat) (img : RGBImage)
    (h : ∃ i j ii jj, grayL (ro img i j) ≠ grayL (ro img ii jj))
    (c : Fin 3) (i j : Fin 128) :
    ∃ q : ℚ, my_transform ro img c i j = FVal.fin q ∧ -1 ≤ q ∧ q ≤ 1 := by
  obtain ⟨a, b, aa, bb, hab⟩ := h
  have hne : preTensor (ro img) 0 a b ≠ preTensor (ro img) 0 aa bb := by
    simp only [preTensor]
    intro hq
    field_simp at hq
    exact hab hq
  have hlt : tmin (preTensor (ro img)) < tmax (preTensor (ro img)) :=
    tmin_lt_tmax_of_ne hne
  have hpos : 0 < tmax (preTensor (ro img)) - tmin (preTensor (ro img)) := sub_pos.2 hlt
  have hdne : tmax (preTensor (ro img)) - tmin (preTensor (ro img)) ≠ 0 := ne_of_gt hpos
  refine ⟨2 * ((preTensor (ro img) c i j - tmin (preTensor (ro img))) /
      (tmax (preTensor (ro img)) - tmin (preTensor (ro img)))) - 1, ?_, ?_, ?_⟩
  · show scaleShift (fdiv (preTensor (ro img) c i j - tmin (preTensor (ro img)))
      (tmax (preTensor (ro img)) - tmin (preTensor (ro img)))) = _
    rw [fdiv_of_ne _ _ hdne]
    rfl
  · have h0 : 0 ≤ (preTensor (ro img) c i j - tmin (preTensor (ro img))) /
        (tmax (preTensor (ro img)) - tmin (preTensor (ro img))) :=
      div_nonneg (sub_nonneg.2 (tmin_le_entry _ c i j)) hpos.le
    linarith
  · have h1 : (preTensor (ro img) c i j - tmin (preTensor (ro img))) /
        (tmax (preTensor (ro img)) - tmin (preTensor (ro img))) ≤ 1 := by
      rw [div_le_one hpos]
      have := entry_le_tmax (preTensor (ro img)) c i j
      linarith
    linarith

/-- Claim C8 as stated fails (counterexample): the black input image is
accepted by the handler with a 200 response, yet the tensor fed to the model
is not in the range [-1, 1]: after the resized grayscale image comes out
constant, the min-max division is 0/0 and the entry at channel 0, position
(0, 0) is nan, a non-finite value. -/
theorem C8_counterexample_nan_entry :
    (generate oracle0 req0 0).1.status = 200 ∧
    my_transform oracle0.resizeO (convertRGB img0) 0 0 0 = FVal.nan ∧
    isFin (my_transform oracle0.resizeO (convertRGB img0) 0 0 0) = false := by
  have hnan := (my_transform_nan_of_const oracle0.resizeO (convertRGB img0)
    (fun _ _ _ _ => rfl) 0 0 0).2
  exact ⟨rfl, hnan, by rw [hnan]; rfl⟩

/-- Claim C8 amended: for every accepted input image the tensor fed to the
model is the 1x3x128x128 unsqueezed transform, whose three channels are
identical; provided the resized grayscale image contains at least two distinct
pixel values, every entry is finite and lies in [-1, 1] (min-max scaling to
[0, 1] followed by the rescale to [-1, 1]); for a constant image the entries
are nan instead. -/
theorem C8_input_tensor_range :
    ∀ (ro : RGBImage → Fin 128 → Fin 128 → Nat × Nat × Nat) (img : RGBImage),
      (∀ (bb : Fin 1) (c : Fin 3) (i j : Fin 128),
        unsqueeze0 (my_transform ro img) bb c i j = my_transform ro img c i j) ∧
      (∀ (c cc : Fin 3) (i j : Fin 128),
        my_transform ro img c i j = my_transform ro img cc i j) ∧
      ((∃ i j ii jj, grayL (ro img i j) ≠ grayL (ro img ii jj)) →
        ∀ (c : Fin 3) (i j : Fin 128),
          ∃ q : ℚ, my_transform ro img c i j = FVal.fin q ∧ -1 ≤ q ∧ q ≤ 1) := by
  intro ro img
  exact ⟨fun bb c i j =>
      congrFun (congrFun (congrFun (unsqueeze0_apply (my_transform ro img) bb) c) i) j,
    fun c cc i j => my_transform_channel ro img c cc i j,
    fun h c i j => my_transform_finite_of_two_values ro img h c i j⟩

/-- Witness for C8 at a concrete two-valued image: the entry at channel 0,
position (0, 0) is finite and lies in [-1, 1]. -/
theorem C8_input_tensor_range_witness :
    ∃ q : ℚ, my_transform resizeTwo rgbBlack 0 0 0 = FVal.fin q ∧ -1 ≤ q ∧ q ≤ 1 :=
  (C8_input_tensor_range resizeTwo rgbBlack).2.2 ⟨0, 0, 1, 1, by decide⟩ 0 0 0

/-- Claim C10: the min-max normalisation of `my_transform` divides by
`x.max() - x.min()` without a guard; on the constant black image the divisor
is zero and the tensor entries are the non-finite nan, while under the
precondition that the resized grayscale image contains at least two distinct
pixel values every entry of the transform is a well-defined finite value. -/
theorem C10_minmax_unguarded :
    (tmax (preTensor (resizeConst rgbBlack)) - tmin (preTensor (resizeConst rgbBlack)) = 0 ∧
      my_transform resizeConst rgbBlack 0 0 0 = FVal.nan) ∧
    (∀ (ro : RGBImage → Fin 128 → Fin 128 → Nat × Nat × Nat) (img : RGBImage),
      (∃ i j ii jj, grayL (ro img i j) ≠ grayL (ro img ii jj)) →
      ∀ (c : Fin 3) (i j : Fin 128), ∃ q : ℚ, my_transform ro img c i j = FVal.fin q) := by
  constructor
  · exact my_transform_nan_of_const resizeConst rgbBlack (fun _ _ _ _ => rfl) 0 0 0
  · intro ro img h c i j
    obtain ⟨q, hq, -, -⟩ := my_transform_finite_of_two_values ro img h c i j
    exact ⟨q, hq⟩

/-- Witness for C10 at a concrete two-valued image: the transform entry at
channel 0, position (0, 0) is a finite value. -/
theorem C10_minmax_unguarded_witness :
    ∃ q : ℚ, my_transform resizeTwo rgbBlack 0 0 0 = FVal.fin q :=
  C10_minmax_unguarded.2 resizeTwo rgbBlack ⟨0, 0, 1, 1, by decide⟩ 0 0 0

/-- Reduction of the handler body on the success path: when the body parses,
the sketch field is present, its base64 decodes and the bytes open as an
image, the body returns the base64 PNG response and saves the three files. -/
theorem generateBody_ok (o : Oracles) (req : HttpRequest) (seed : Nat)
    (data : List (String × String)) (s : String) (bs : List Nat) (im : PILImage)
    (h1 : req.json = Except.ok data) (h2 : jget "sketch" data = some s)
    (h3 : b64decode s = Except.ok bs) (h4 : o.imgOpen bs = Except.ok im) :
    generateBody o req seed = Except.ok
      ([("generated_image", JVal.str (b64encode (o.pngEncode
          (outputImage o seed (unsqueeze0 (my_transform o.resizeO (convertRGB im)))))))],
       [(tmp_dir ++ "/processed_input.png", SavedImage.ofRGB (convertRGB im)),
        (tmp_dir ++ "/debug_input.png", SavedImage.ofTensor (fun c i j =>
          toByte (fvalDenorm (unsqueeze0 (my_transform o.resizeO (convertRGB im)) 0 c i j)))),
        (tmp_dir ++ "/final_output.png", SavedImage.ofTensor
          (outputImage o seed (unsqueeze0 (my_transform o.resizeO (convertRGB im)))))]) := by
  simp only [generateBody, h1, h2, h3, h4]

/-- Every successful run of the handler body saves exactly the three debug and
output files under `tmp_dir`, in order. -/
theorem generateBody_paths (o : Oracles) (req : HttpRequest) (seed : Nat)
    (b : List (String × JVal)) (w : List (String × SavedImage))
    (h : generateBody o req seed = Except.ok (b, w)) :
    w.map Prod.fst = [tmp_dir ++ "/processed_input.png", tmp_dir ++ "/debug_input.png",
      tmp_dir ++ "/final_output.png"] := by
  unfold generateBody at h
  repeat' split at h
  all_goals try simp_all
  obtain ⟨hb, hw⟩ := h
  subst hw
  rfl

/-- Claim C5: whenever the request body parses, carries a sketch field whose
base64 decodes, and the bytes open as a valid image of any size and mode, the
response is 200 with exactly the field generated_image holding the base64 of
the PNG encoding of the postprocessed (denormalised, clamped) model output. -/
theorem C5_success_response :
    ∀ (o : Oracles) (req : HttpRequest) (rng : Nat)
      (data : List (String × String)) (s : String) (bs : List Nat) (im : PILImage),
      req.json = Except.ok data →
      jget "sketch" data = some s →
      b64decode s = Except.ok bs →
      o.imgOpen bs = Except.ok im →
      (generate o req rng).1 =
        ⟨200, [("generated_image", JVal.str (b64encode (o.pngEncode
          (outputImage o 42 (unsqueeze0 (my_transform o.resizeO (convertRGB im)))))))]⟩ := by
  intro o req rng data s bs im h1 h2 h3 h4
  unfold generate
  rw [generateBody_ok o req 42 data s bs im h1 h2 h3 h4]

/-- Witness for C5 at a concrete request and oracle bundle. -/
theorem C5_success_response_witness :
    (generate oracle0 req0 0).1 =
      ⟨200, [("generated_image", JVal.str (b64encode (oracle0.pngEncode
        (outputImage oracle0 42 (unsqueeze0 (my_transform oracle0.resizeO (convertRGB img0)))))))]⟩ :=
  C5_success_response oracle0 req0 0 [("sketch", "QUJDRA==")] "QUJDRA==" [65, 66, 67, 68] img0
    rfl rfl rfl rfl

/-- Claim C6 as stated fails (counterexample): on a concrete successful
request the handler leaves three files behind under `tmp_dir`, so a request
does write state that persists after the response. -/
theorem C6_counterexample_files_persist :
    (generate oracle0 req0 0).2.1.map Prod.fst =
      [tmp_dir ++ "/processed_input.png", tmp_dir ++ "/debug_input.png",
        tmp_dir ++ "/final_output.png"] ∧
    (generate oracle0 req0 0).2.1 ≠ [] := by
  have h3 : (generate oracle0 req0 0).2.1.length = 3 := rfl
  refine ⟨rfl, fun hnil => ?_⟩
  rw [hnil] at h3
  simp at h3

/-- Claim C6 amended: the handler keeps no in-memory state between requests,
but it does write files: each request saves either nothing (failure before the
first save) or exactly the three debug and output images under `tmp_dir`,
which persist after the response; nothing else outlives a request. -/
theorem C6_writes_only_tmp_files :
    ∀ (o : Oracles) (req : HttpRequest) (rng : Nat),
      (generate o req rng).2.1.map Prod.fst = [] ∨
      (generate o req rng).2.1.map Prod.fst =
        [tmp_dir ++ "/processed_input.png", tmp_dir ++ "/debug_input.png",
          tmp_dir ++ "/final_output.png"] := by
  intro o req rng
  unfold generate
  rcases h : generateBody o req 42 with e | ⟨b, w⟩
  · exact Or.inl rfl
  · exact Or.inr (generateBody_paths o req 42 b w h)

end EdgeToShoe
